import Mathlib

/-!
Verification of the mqs inventory crawler and catalog update engine.

This file is a shallow embedding, in Lean 4, of the core of the
`metadata_manager` plugin: the per-record metadata pipeline of
`Plugins/metadata_manager/processors/inventory_processor.py`
(quality scoring, WGS84 extent transform fallback, preservation of
catalog-management fields in update mode, retirement of vanished
records, and the GeoPackage write phase), the discovery stage
(`_discover_geospatial_files`), the terminal reporting of
`processors/inventory_runner.py`, and the catalog-side helpers of
`db/manager.py` (`validate_inventory_database`,
`update_inventory_metadata_status`).

Modelling conventions:
- a Python dict of per-record fields becomes a fixed structure with
  `Option` fields for keys that may be absent or NULL;
- the persisted catalog table becomes a `List CatalogRow`; an SQL
  `UPDATE ... WHERE ...` becomes a `List.map` that rewrites exactly the
  matching rows; deleting and rewriting the inventory layer becomes
  replacing the list;
- the GDAL/OGR/osr libraries are external: the coordinate transform and
  the per-file probe results are taken as parameters (a transform that
  raises is a function returning `none`; a file no library can open is a
  probe with no vector layers and no raster capability);
- extent strings of the form "xmin,ymin,xmax,ymax" are represented
  structurally by `Extent` (the formatting is irrelevant to the claims);
- timestamps (`datetime.now()`, SQLite `datetime` of now) are threaded
  as explicit string parameters;
- the quality score is a sum of integer weights, so Python's
  `round(score, 1)` on a float holding a small integer is the identity
  and the score is modelled as a `Nat`.
-/

namespace MQS

/-- A bounding extent (xmin, ymin, xmax, ymax); coordinates are modelled
as integers since none of the verified properties depend on fractional
coordinate values. -/
structure Extent where
  xmin : Int
  ymin : Int
  xmax : Int
  ymax : Int
deriving DecidableEq, Repr

/-- A corner point of a footprint polygon. -/
structure Point where
  x : Int
  y : Int
deriving DecidableEq, Repr

/-- The fields of one inventory record that come from fresh extraction
(`_extract_metadata` and its helpers), i.e. every field except the
identity pair and the catalog-management fields.  `other_fields` stands
for the remaining extracted columns (file size, timestamps, CRS text,
field lists, ...) that no verified claim inspects individually. -/
structure ExtractedFields where
  data_type : String
  has_crs : Bool
  has_extent : Bool
  metadata_present : Bool
  field_count : Nat
  band_count : Nat
  is_valid : Option Bool
  issues : Option String
  native_extent : Option Extent
  wgs84_extent : Option Extent
  other_fields : List (String × String)
deriving DecidableEq, Repr

/-- One record produced by `_extract_metadata`: the identity pair, the
freshly extracted fields, and the catalog-management fields
(`metadata_status`, `metadata_cached`, `metadata_last_updated`,
`metadata_target`).  `Option` models a key that is absent from the
Python dict or holds NULL. -/
structure FeatureData where
  file_path : String
  layer_name : String
  extracted : ExtractedFields
  metadata_status : Option String
  metadata_cached : Option Bool
  metadata_last_updated : Option String
  metadata_target : Option String
deriving DecidableEq, Repr

/-- One persisted row of the inventory table: a `FeatureData` plus the
`retired_datetime` column (`none` while the record is active). -/
structure CatalogRow where
  file_path : String
  layer_name : String
  extracted : ExtractedFields
  metadata_status : Option String
  metadata_cached : Option Bool
  metadata_last_updated : Option String
  metadata_target : Option String
  retired_datetime : Option String
deriving DecidableEq, Repr

/-- The catalog-management fields that `_load_existing_inventory`
selects for one prior active record. -/
structure PriorMeta where
  metadata_status : Option String
  metadata_cached : Option Bool
  metadata_last_updated : Option String
  metadata_target : Option String
deriving DecidableEq, Repr

/-- Python truthiness of the `issues` value: `not feature_data.get("issues")`
is true when the key is absent, None, or the empty string. -/
def issuesFalsy : Option String → Bool
  | none => true
  | some s => s = ""

/-- Model of `InventoryProcessor._calculate_quality_score`: a sequence of
guarded additions exactly mirroring the Python function.  `is_valid`
defaults to valid when unchecked (`feature_data.get("is_valid", True)`). -/
def calculateQualityScore (e : ExtractedFields) : Nat :=
  let s0 : Nat := 0
  let s1 := if e.has_crs then s0 + 20 else s0
  let s2 := if e.has_extent then s1 + 20 else s1
  let s3 := if e.metadata_present then s2 + 20 else s2
  let s4 :=
    if e.data_type = "vector" then
      (if e.field_count > 0 then s3 + 15 else s3)
    else if e.data_type = "raster" then
      (if e.band_count > 0 then s3 + 15 else s3)
    else s3
  let s5 := if e.is_valid.getD true then s4 + 15 else s4
  if issuesFalsy e.issues then s5 + 10 else s5

/-- The quality-score formula as the (amended) specification words it: a
single weighted sum over the six properties. -/
def qualityScoreSpec (e : ExtractedFields) : Nat :=
  (if e.has_crs then 20 else 0) +
  (if e.has_extent then 20 else 0) +
  (if e.metadata_present then 20 else 0) +
  (if (e.data_type = "vector" ∧ e.field_count > 0) ∨
      (e.data_type = "raster" ∧ e.band_count > 0) then 15 else 0) +
  (if e.is_valid.getD true then 15 else 0) +
  (if issuesFalsy e.issues then 10 else 0)

/-- Model of `InventoryProcessor._transform_extent_to_wgs84`.  The osr
coordinate transform is external and is passed as a function; a transform
that raises (undefined or exotic projection) is modelled as returning
`none`.  On success the function stores the transformed extent in
`wgs84_extent`; on failure the bare `except: pass` leaves the record
exactly as it was: no field is written and no flag is set. -/
def transformExtentToWgs84 (transform : Extent → Option Extent)
    (e : ExtractedFields) (extent : Extent) : ExtractedFields :=
  match transform extent with
  | some w => { e with wgs84_extent := some w }
  | none => e

/-- Model of `InventoryProcessor._create_extent_geometry`: the footprint
is the closed five-point rectangle of the WGS84 extent, or `none` when
`wgs84_extent` is unset. -/
def createExtentGeometry (e : ExtractedFields) : Option (List Point) :=
  match e.wgs84_extent with
  | none => none
  | some w =>
      some [⟨w.xmin, w.ymin⟩, ⟨w.xmax, w.ymin⟩, ⟨w.xmax, w.ymax⟩,
            ⟨w.xmin, w.ymax⟩, ⟨w.xmin, w.ymin⟩]

/-- Outcome of the extent step of `inventory_miner._extract_vector_metadata`
(the standalone script): the `wgs84_extent` attribute, the rectangle used
as the footprint geometry, and whether a warning was pushed to feedback. -/
structure MinerExtentResult where
  wgs84_extent : Option Extent
  footprint : Extent
  warned : Bool
deriving DecidableEq, Repr

/-- Model of the extent transform step in
`inventory_miner._extract_vector_metadata`: on success the transformed
rectangle is stored and used as the footprint; on failure a warning is
pushed and the native rectangle is used as the footprint, while the
`wgs84_extent` attribute is left unset. -/
def minerTransformExtent (transform : Extent → Option Extent)
    (native : Extent) : MinerExtentResult :=
  match transform native with
  | some w => { wgs84_extent := some w, footprint := w, warned := false }
  | none => { wgs84_extent := none, footprint := native, warned := true }

/-- A probe result handed to `_extract_metadata`: one entry of the list
built by `_discover_geospatial_files`. -/
structure DSInfo where
  path : String
  dtype : String
  layer_name : String
  layer_index : Nat
deriving DecidableEq, Repr

/-- Model of `InventoryProcessor._load_existing_inventory`: the active
(`retired_datetime IS NULL`) rows of the persisted inventory table, keyed
by the `(file_path, layer_name)` identity, carrying the four
catalog-management columns that the SELECT projects. -/
def loadExistingInventory (table : List CatalogRow) :
    List ((String × String) × PriorMeta) :=
  table.filterMap fun r =>
    if r.retired_datetime = none then
      some ((r.file_path, r.layer_name),
        { metadata_status := r.metadata_status
          metadata_cached := r.metadata_cached
          metadata_last_updated := r.metadata_last_updated
          metadata_target := r.metadata_target })
    else none

/-- Dictionary lookup on the loaded inventory (`key in existing_inventory`
followed by reading the entry). -/
def lookupExisting (inv : List ((String × String) × PriorMeta))
    (key : String × String) : Option PriorMeta :=
  (inv.find? fun entry => entry.1 = key).map fun entry => entry.2

/-- Model of `InventoryProcessor._apply_preserved_metadata_status`: on an
identity match the four catalog-management fields are copied from the
prior record (the Python `dict.get` defaults are dead because the SELECT
always provides the keys); otherwise the record starts with
`metadata_status = "none"` and `metadata_cached = false`. -/
def applyPreservedMetadataStatus
    (existing : List ((String × String) × PriorMeta))
    (fd : FeatureData) : FeatureData :=
  match lookupExisting existing (fd.file_path, fd.layer_name) with
  | some old =>
      { fd with metadata_status := old.metadata_status
                metadata_cached := old.metadata_cached
                metadata_last_updated := old.metadata_last_updated
                metadata_target := old.metadata_target }
  | none =>
      { fd with metadata_status := some "none"
                metadata_cached := some false }

/-- One SQL UPDATE of `_retire_old_records` applied to one row: set
`retired_datetime = ts` where `file_path = fp`, `layer_name = ln` and
`retired_datetime IS NULL`. -/
def retireUpdateRow (ts fp ln : String) (r : CatalogRow) : CatalogRow :=
  if r.file_path = fp ∧ r.layer_name = ln ∧ r.retired_datetime = none then
    { r with retired_datetime := some ts }
  else r

/-- Model of `InventoryProcessor._retire_old_records`: iterate over the
identities of the previously loaded inventory and, for each identity
whose FILE PATH is absent from the set of file paths of the newly
extracted records, run the retire UPDATE for that identity.  Note the
guard tests only `file_path not in current_file_paths` — the layer name
plays no part in deciding whether to retire. -/
def retireOldRecords (existingKeys : List (String × String))
    (currentFilePaths : List String) (ts : String)
    (table : List CatalogRow) : List CatalogRow :=
  existingKeys.foldl
    (fun tbl key =>
      if key.1 ∈ currentFilePaths then tbl
      else tbl.map (retireUpdateRow ts key.1 key.2))
    table

/-- Single-pass characterisation of the retire step, used to state what
`_retire_old_records` does to each row: a row is retired exactly when its
identity is among the prior active identities, its file path is absent
from the new file-path set, and it is still active; no other field of any
row is touched. -/
def retireRowSpec (keys : List (String × String)) (paths : List String)
    (ts : String) (r : CatalogRow) : CatalogRow :=
  if (r.file_path, r.layer_name) ∈ keys ∧ r.file_path ∉ paths ∧
      r.retired_datetime = none then
    { r with retired_datetime := some ts }
  else r

/-- The file-path set that `process` accumulates from the extracted
records. -/
def currentFilePathsOf (features : List FeatureData) : List String :=
  features.map fun fd => fd.file_path

/-- Conversion of an extracted record into the persisted row written by
`_write_geopackage`; extraction never sets `retired_datetime`, so the
written row is active. -/
def featureToRow (fd : FeatureData) : CatalogRow :=
  { file_path := fd.file_path
    layer_name := fd.layer_name
    extracted := fd.extracted
    metadata_status := fd.metadata_status
    metadata_cached := fd.metadata_cached
    metadata_last_updated := fd.metadata_last_updated
    metadata_target := fd.metadata_target
    retired_datetime := none }

/-- Model of `InventoryProcessor._write_geopackage` restricted to the
inventory table: with no features it returns without touching the
database; otherwise it deletes the existing inventory layer and writes a
new layer holding exactly the freshly extracted records. -/
def writeGeopackage (features : List FeatureData)
    (rows : List CatalogRow) : List CatalogRow :=
  if features.isEmpty then rows else features.map featureToRow

/-- Model of the extraction loop of `process` in update mode: the
cancellation flag is polled at the top of each iteration (`cancel 0` is
the poll for the current item; the schedule is shifted by one for the
recursive call); each successful extraction is passed through
`_apply_preserved_metadata_status`; a failed extraction (`none`)
contributes no record. -/
def extractFeaturesU (existing : List ((String × String) × PriorMeta))
    (extract : DSInfo → Option FeatureData) (cancel : Nat → Bool) :
    List DSInfo → List FeatureData
  | [] => []
  | d :: ds =>
      if cancel 0 then []
      else
        match extract d with
        | some fd =>
            applyPreservedMetadataStatus existing fd ::
              extractFeaturesU existing extract (fun i => cancel (i + 1)) ds
        | none => extractFeaturesU existing extract (fun i => cancel (i + 1)) ds

/-- Failure-injection points in the persistence phase of a scan session:
`noFail` is the normal run; `beforeLayerDelete` fails after
`_retire_old_records` has committed but before `_write_geopackage`
touches the layer; `atWriterCreate` fails after `_write_geopackage` has
deleted the existing layer but before the new layer is written. -/
inductive WriteFailPoint where
  | noFail
  | beforeLayerDelete
  | atWriterCreate
deriving DecidableEq, Repr

/-- Model of `InventoryProcessor.process` in update mode, restricted to
the persisted inventory table, with a failure-injection point.  Mirrors
the source order: early return when discovery found nothing; load the
existing inventory; run the extraction loop (which keeps whatever was
extracted before a cancellation); retire identities whose file path is
missing (committed by its own connection); finally rewrite the layer.
Cancellation does NOT skip the retire or write steps. -/
def processUpdateAt (failPoint : WriteFailPoint) (cancel : Nat → Bool)
    (extract : DSInfo → Option FeatureData) (dss : List DSInfo)
    (ts : String) (table : List CatalogRow) : List CatalogRow :=
  if dss.isEmpty then table
  else
    let existing := loadExistingInventory table
    let features := extractFeaturesU existing extract cancel dss
    let currentPaths := currentFilePathsOf features
    let table1 :=
      if existing.isEmpty then table
      else retireOldRecords (existing.map fun entry => entry.1)
        currentPaths ts table
    match failPoint with
    | .noFail => writeGeopackage features table1
    | .beforeLayerDelete => table1
    | .atWriterCreate => if features.isEmpty then table1 else []

/-- The complete (non-failing) update-mode scan session. -/
def processUpdate (cancel : Nat → Bool)
    (extract : DSInfo → Option FeatureData) (dss : List DSInfo)
    (ts : String) (table : List CatalogRow) : List CatalogRow :=
  processUpdateAt .noFail cancel extract dss ts table

/-- A cancellation schedule that never cancels. -/
def neverCancel : Nat → Bool := fun _ => false

/-- A cancellation schedule that requests cancellation from the k-th
between-items check on (sticky, like the feedback cancel flag). -/
def cancelFrom (k : Nat) : Nat → Bool := fun i => decide (k ≤ i)

/-- Terminal outcome emitted by `InventoryRunner.run`: either the
`finished` signal with the output location and statistics, or the `error`
signal with a message. -/
inductive RunnerOutcome where
  | finishedOk (gpkg : String) (layerName : String) (total : Nat)
  | errorOut (msg : String)
deriving DecidableEq, Repr

/-- Model of the terminal reporting of `InventoryRunner.run`: an
exception makes the runner emit `error` with the exception text; a
canceled run emits `error` with the fixed message "Scan canceled by
user"; otherwise the `finished` signal is emitted. -/
def runnerReport (canceled : Bool) (raised : Option String)
    (gpkg layerName : String) (total : Nat) : RunnerOutcome :=
  match raised with
  | some msg => .errorOut msg
  | none =>
      if canceled then .errorOut "Scan canceled by user"
      else .finishedOk gpkg layerName total

/-- Scan flags consumed by `_discover_geospatial_files`. -/
structure DiscoverParams where
  include_vectors : Bool
  include_rasters : Bool
  include_tables : Bool
deriving DecidableEq, Repr

/-- The externally determined openability of one file: `ogrLayers` is
`some layers` when `ogr.Open` succeeds (each layer carries its name and
whether it is spatial, i.e. its geometry type is not `wkbNone`);
`gdalRaster` is true when `gdal.Open` succeeds.  A file no library can
open has `ogrLayers = none` and `gdalRaster = false`. -/
structure FileProbe where
  path : String
  stem : String
  ogrLayers : Option (List (String × Bool))
  gdalRaster : Bool
deriving DecidableEq, Repr

/-- Model of the per-file body of `_discover_geospatial_files`: try OGR
first (when vectors or tables are requested); if OGR opens the file,
enumerate its layers, keep the layers allowed by the flags, and skip the
raster attempt (`continue`); if OGR does not open it, try GDAL when
rasters are requested.  A file that opens nowhere contributes nothing,
and no error is recorded anywhere. -/
def discoverFile (p : DiscoverParams) (f : FileProbe) : List DSInfo :=
  match (if p.include_vectors || p.include_tables then f.ogrLayers else none) with
  | some layers =>
      layers.enum.filterMap fun li =>
        if (li.2.2 && p.include_vectors) || (!li.2.2 && p.include_tables) then
          some { path := f.path
                 dtype := if li.2.2 then "vector" else "table"
                 layer_name := li.2.1
                 layer_index := li.1 }
        else none
  | none =>
      if p.include_rasters && f.gdalRaster then
        [{ path := f.path, dtype := "raster", layer_name := f.stem,
           layer_index := 0 }]
      else []

/-- Model of `_discover_geospatial_files` over the file sequence that
`rglob` yields. -/
def discoverGeospatialFiles (p : DiscoverParams) (files : List FileProbe) :
    List DSInfo :=
  files.foldr (fun f acc => discoverFile p f ++ acc) []

/-- The running counters of one scan session. -/
structure Stats where
  total : Nat
  vectors : Nat
  rasters : Nat
  tables : Nat
  errors : Nat
deriving DecidableEq, Repr

/-- The stats update of `process` for one successfully extracted record. -/
def updateStats (s : Stats) (dt : String) : Stats :=
  { s with total := s.total + 1
           vectors := if dt = "vector" then s.vectors + 1 else s.vectors
           rasters := if dt = "raster" then s.rasters + 1 else s.rasters
           tables := if dt = "table" then s.tables + 1 else s.tables }

/-- Model of the extraction loop of `process` at the level of its
counters (a run in which cancellation never triggers): per item,
`_extract_metadata` either raises (`Except.error`, counted in `errors`
and the scan continues), returns no record (`Except.ok none`), or
returns a record that is appended and counted by data type. -/
def runExtraction (extract : DSInfo → Except String (Option FeatureData)) :
    List DSInfo → Stats → List FeatureData × Stats
  | [], s => ([], s)
  | d :: ds, s =>
      match extract d with
      | .error _ => runExtraction extract ds { s with errors := s.errors + 1 }
      | .ok none => runExtraction extract ds s
      | .ok (some fd) =>
          let rest := runExtraction extract ds (updateStats s fd.extracted.data_type)
          (fd :: rest.1, rest.2)

/-- The columns that `validate_inventory_database` requires of the
inventory table. -/
def requiredInventoryFields : List String :=
  ["metadata_status", "metadata_last_updated", "metadata_target",
   "metadata_cached", "retired_datetime"]

/-- Model of `MetadataDatabaseManager.validate_inventory_database`:
fail when not connected; fail when the `geospatial_inventory` table is
absent; fail when any required column is missing; otherwise succeed.
The returned string is the user-facing message. -/
def validateInventoryDatabase (connected : Bool) (tables : List String)
    (columns : List String) : Bool × String :=
  if connected = false then (false, "Not connected to database")
  else if "geospatial_inventory" ∈ tables then
    if (requiredInventoryFields.filter fun fld => decide (fld ∉ columns)).isEmpty then
      (true, "Database validated successfully")
    else
      (false, "Inventory database is outdated. Missing fields: " ++
        String.intercalate ", "
          (requiredInventoryFields.filter fun fld => decide (fld ∉ columns)))
  else
    (false, "This database was not created by Inventory Miner. " ++
      "The geospatial_inventory table is missing.")

/-- Model of `MetadataDatabaseManager.update_inventory_metadata_status`:
the SQL UPDATE sets the four catalog-management columns on every row
whose `(file_path, layer_name)` matches — with no condition on
`retired_datetime` — and the method returns `rowcount > 0`, i.e. whether
any row matched.  `dbError` models an exception: the transaction is
rolled back and the table is unchanged. -/
def updateInventoryMetadataStatus (connected dbError : Bool) (now : String)
    (layer_path layerName status target : String) (cached : Bool)
    (table : List CatalogRow) : Bool × List CatalogRow :=
  if connected = false then (false, table)
  else if dbError then (false, table)
  else
    (table.any fun r => r.file_path = layer_path ∧ r.layer_name = layerName,
     table.map fun r =>
       if r.file_path = layer_path ∧ r.layer_name = layerName then
         { r with metadata_status := some status
                  metadata_last_updated := some now
                  metadata_target := some target
                  metadata_cached := some cached }
       else r)

/-! Concrete inputs used by counterexamples and witnesses. -/

/-- An extracted-fields value with none of the scored properties: no CRS,
no extent, no metadata, a vector with no fields, explicitly invalid, and
with a recorded issue. -/
def exFieldsNone : ExtractedFields :=
  { data_type := "vector", has_crs := false, has_extent := false
    metadata_present := false, field_count := 0, band_count := 0
    is_valid := some false, issues := some "unreadable"
    native_extent := none, wgs84_extent := none, other_fields := [] }

/-- An extracted-fields value with CRS, extent, descriptive metadata,
vector field information and no recorded issues, explicitly marked
invalid. -/
def exFieldsComboInvalid : ExtractedFields :=
  { data_type := "vector", has_crs := true, has_extent := true
    metadata_present := true, field_count := 3, band_count := 0
    is_valid := some false, issues := none
    native_extent := none, wgs84_extent := none, other_fields := [] }

/-- The same record as `exFieldsComboInvalid` but fully valid. -/
def exFieldsComboValid : ExtractedFields :=
  { exFieldsComboInvalid with is_valid := some true }

/-- A concrete native extent used to exercise the transform-failure path. -/
def exNativeExtent : Extent := { xmin := 0, ymin := 0, xmax := 10, ymax := 10 }

/-- A concrete extracted-fields value holding `exNativeExtent` as its
native extent, before any WGS84 transform. -/
def exFieldsWithNative : ExtractedFields :=
  { data_type := "vector", has_crs := true, has_extent := true
    metadata_present := false, field_count := 1, band_count := 0
    is_valid := none, issues := none
    native_extent := some exNativeExtent, wgs84_extent := none
    other_fields := [] }

/-- A transform that always fails, modelling an osr transform that raises
on an undefined or exotic projection. -/
def failingTransform : Extent → Option Extent := fun _ => none

/-- A prior active catalog row for layer "x" of the container file
`/data/a.gpkg`, with curated management fields. -/
def exRowA : CatalogRow :=
  { file_path := "/data/a.gpkg", layer_name := "x"
    extracted := exFieldsComboValid
    metadata_status := some "complete", metadata_cached := some true
    metadata_last_updated := some "2025-05-05", metadata_target := some "file"
    retired_datetime := none }

/-- A prior active catalog row for sibling layer "y" of the same
container file `/data/a.gpkg`. -/
def exRowB : CatalogRow :=
  { exRowA with layer_name := "y", metadata_status := some "partial" }

/-- A freshly extracted record for layer "x" of `/data/a.gpkg` (layer "y"
has disappeared from the container). -/
def exFdAX : FeatureData :=
  { file_path := "/data/a.gpkg", layer_name := "x"
    extracted := exFieldsComboValid
    metadata_status := none, metadata_cached := none
    metadata_last_updated := none, metadata_target := none }

/-- A prior active catalog row for a file that has since been removed. -/
def exRowOld : CatalogRow :=
  { file_path := "/data/old.shp", layer_name := "old"
    extracted := exFieldsComboValid
    metadata_status := some "complete", metadata_cached := some true
    metadata_last_updated := some "2025-05-05", metadata_target := some "file"
    retired_datetime := none }

/-- A freshly extracted record for a newly appeared file. -/
def exFdNew : FeatureData :=
  { file_path := "/data/new.shp", layer_name := "new"
    extracted := exFieldsComboValid
    metadata_status := none, metadata_cached := none
    metadata_last_updated := none, metadata_target := none }

/-- The discovery output for the rescan that finds only `/data/new.shp`. -/
def exDssNew : List DSInfo :=
  [{ path := "/data/new.shp", dtype := "vector", layer_name := "new",
     layer_index := 0 }]

/-- The extraction behaviour for that rescan. -/
def exExtractNew : DSInfo → Option FeatureData := fun d =>
  if d.path = "/data/new.shp" then some exFdNew else none

/-- Freshly extracted record for the first of two items of a scan that is
canceled after one item. -/
def exFdA2 : FeatureData :=
  { file_path := "/data/a2.shp", layer_name := "a2"
    extracted := exFieldsComboValid
    metadata_status := none, metadata_cached := none
    metadata_last_updated := none, metadata_target := none }

/-- Freshly extracted record for the second item (never reached). -/
def exFdB2 : FeatureData :=
  { exFdA2 with file_path := "/data/b2.shp", layer_name := "b2" }

/-- The two discovered items of the canceled scan. -/
def exDss2 : List DSInfo :=
  [{ path := "/data/a2.shp", dtype := "vector", layer_name := "a2",
     layer_index := 0 },
   { path := "/data/b2.shp", dtype := "vector", layer_name := "b2",
     layer_index := 0 }]

/-- The extraction behaviour of the canceled scan. -/
def exExtract2 : DSInfo → Option FeatureData := fun d =>
  if d.path = "/data/a2.shp" then some exFdA2
  else if d.path = "/data/b2.shp" then some exFdB2
  else none

/-- A prior active catalog row present before the canceled scan. -/
def exRowP : CatalogRow :=
  { exRowOld with file_path := "/data/p.shp", layer_name := "p" }

/-- A probe for a file that OGR opens with one spatial layer. -/
def exProbeVec : FileProbe :=
  { path := "/data/v.shp", stem := "v", ogrLayers := some [("v", true)]
    gdalRaster := false }

/-- A probe for a file that no library can open. -/
def exProbeBad : FileProbe :=
  { path := "/data/bad.bin", stem := "bad", ogrLayers := none
    gdalRaster := false }

/-- A probe for a file that only GDAL opens, as a raster. -/
def exProbeRas : FileProbe :=
  { path := "/data/r.tif", stem := "r", ogrLayers := none
    gdalRaster := true }

/-- Discovery flags with every category enabled. -/
def exParamsAll : DiscoverParams :=
  { include_vectors := true, include_rasters := true, include_tables := true }

/-- An extraction behaviour for the discovery example: vectors extract to
`exFdA2`, rasters to `exFdB2`, nothing raises. -/
def exExtractC8 : DSInfo → Except String (Option FeatureData) := fun d =>
  if d.dtype = "vector" then .ok (some exFdA2)
  else if d.dtype = "raster" then .ok (some exFdB2)
  else .ok none

/-- Zeroed counters. -/
def exStatsZero : Stats :=
  { total := 0, vectors := 0, rasters := 0, tables := 0, errors := 0 }

/-! Shared lemmas. -/

/-- When the key's file path is present among the new file paths, the
key contributes nothing to the single-pass characterisation. -/
theorem retireRowSpec_cons_mem (k : String × String)
    (ks : List (String × String)) (paths : List String) (ts : String)
    (hk : k.1 ∈ paths) (r : CatalogRow) :
    retireRowSpec (k :: ks) paths ts r = retireRowSpec ks paths ts r := by
  unfold retireRowSpec
  by_cases hmem : (r.file_path, r.layer_name) ∈ ks <;>
  by_cases heq : (r.file_path, r.layer_name) = k <;>
  by_cases hp : r.file_path ∈ paths <;>
  by_cases hact : r.retired_datetime = none <;>
  simp_all [List.mem_cons]
  exact absurd (by rw [show r.file_path = k.1 from congrArg Prod.fst heq]; exact hk) hp

/-- When the key's file path is absent from the new file paths, applying
that key's UPDATE and then the characterisation for the remaining keys is
the characterisation for all the keys. -/
theorem retireRowSpec_cons_update (k : String × String)
    (ks : List (String × String)) (paths : List String) (ts : String)
    (hk : k.1 ∉ paths) (r : CatalogRow) :
    retireRowSpec ks paths ts (retireUpdateRow ts k.1 k.2 r) =
      retireRowSpec (k :: ks) paths ts r := by
  unfold retireRowSpec retireUpdateRow
  by_cases h1 : r.file_path = k.1 <;>
  by_cases h2 : r.layer_name = k.2 <;>
  by_cases h3 : r.retired_datetime = none <;>
  by_cases hmem : (r.file_path, r.layer_name) ∈ ks <;>
  by_cases hp : r.file_path ∈ paths <;>
  simp_all [List.mem_cons, Prod.ext_iff]

/-- `_retire_old_records` in one pass: the fold of per-key UPDATEs equals
mapping the single-pass characterisation over the table. -/
theorem retireOldRecords_characterization (keys : List (String × String))
    (paths : List String) (ts : String) (table : List CatalogRow) :
    retireOldRecords keys paths ts table =
      table.map (retireRowSpec keys paths ts) := by
  induction keys generalizing table with
  | nil =>
      unfold retireOldRecords retireRowSpec
      simp
  | cons k ks ih =>
      unfold retireOldRecords at ih ⊢
      simp only [List.foldl_cons]
      by_cases hk : k.1 ∈ paths
      · rw [if_pos hk, ih]
        have hfun : retireRowSpec (k :: ks) paths ts =
            retireRowSpec ks paths ts := funext fun r =>
          retireRowSpec_cons_mem k ks paths ts hk r
        rw [hfun]
      · rw [if_neg hk, ih, List.map_map]
        have hfun : retireRowSpec ks paths ts ∘ retireUpdateRow ts k.1 k.2 =
            retireRowSpec (k :: ks) paths ts := funext fun r =>
          retireRowSpec_cons_update k ks paths ts hk r
        rw [hfun]

/-- A run that is canceled from the k-th between-items check on extracts
exactly what an uninterrupted run over the first k items extracts. -/
theorem extractFeaturesU_cancelFrom
    (existing : List ((String × String) × PriorMeta))
    (extract : DSInfo → Option FeatureData) (k : Nat) (dss : List DSInfo) :
    extractFeaturesU existing extract (cancelFrom k) dss =
      extractFeaturesU existing extract neverCancel (dss.take k) := by
  induction dss generalizing k with
  | nil => simp [extractFeaturesU]
  | cons d ds ih =>
      cases k with
      | zero =>
          unfold extractFeaturesU
          simp [cancelFrom]
      | succ k =>
          have hshift : (fun i => cancelFrom (k + 1) (i + 1)) = cancelFrom k := by
            funext i
            simp [cancelFrom]
          rw [List.take_succ_cons]
          unfold extractFeaturesU
          rw [hshift]
          simp only [ih]
          have h1 : cancelFrom (k + 1) 0 = false := by simp [cancelFrom]
          cases hx : extract d <;> simp [hx, h1, neverCancel] <;> rfl

/-- Discovery distributes over concatenation of the file sequence. -/
theorem discoverGeospatialFiles_append (p : DiscoverParams)
    (l1 l2 : List FileProbe) :
    discoverGeospatialFiles p (l1 ++ l2) =
      discoverGeospatialFiles p l1 ++ discoverGeospatialFiles p l2 := by
  induction l1 with
  | nil => simp [discoverGeospatialFiles]
  | cons f fs ih =>
      unfold discoverGeospatialFiles at ih ⊢
      simp [ih]

/-- A file that no library can open contributes nothing to discovery. -/
theorem discoverFile_unopenable (p : DiscoverParams) (f : FileProbe)
    (hogr : f.ogrLayers = none) (hras : f.gdalRaster = false) :
    discoverFile p f = [] := by
  unfold discoverFile
  rw [hogr]
  cases p.include_vectors || p.include_tables <;> simp [hras]

/-! Claim theorems. -/

/-- Claim C6, counterexample: the record with CRS, extent, descriptive metadata,
field information and no issues, explicitly marked invalid, scores 85 and
not 90 as the claim states (the basic-validity weight is 15, so
100 - 15 = 85). -/
theorem quality_score_invalid_combo_not_90 :
    exFieldsComboInvalid.has_crs = true ∧
    exFieldsComboInvalid.has_extent = true ∧
    exFieldsComboInvalid.metadata_present = true ∧
    exFieldsComboInvalid.data_type = "vector" ∧
    exFieldsComboInvalid.field_count > 0 ∧
    exFieldsComboInvalid.issues = none ∧
    exFieldsComboInvalid.is_valid = some false ∧
    calculateQualityScore exFieldsComboInvalid = 85 ∧
    calculateQualityScore exFieldsComboInvalid ≠ 90 := by
  decide

/-- Claim C6, amended: the quality score equals the deterministic weighted sum
(+20 CRS, +20 extent, +20 descriptive metadata, +15 field info for a
vector or band info for a raster, +15 basic validity defaulting to valid
when unchecked, +10 no recorded issues); it always lies in [0,100] (so
the clamp is vacuous and rounding to one decimal is the identity on these
whole-number sums); a record with none of the properties scores exactly
0, and a record with CRS, extent, metadata, field info and no issues
scores 85 when explicitly marked invalid and 100 when valid. -/
theorem quality_score_formula :
    (∀ e : ExtractedFields,
        calculateQualityScore e = qualityScoreSpec e ∧
        calculateQualityScore e ≤ 100) ∧
    calculateQualityScore exFieldsNone = 0 ∧
    calculateQualityScore exFieldsComboInvalid = 85 ∧
    calculateQualityScore exFieldsComboValid = 100 := by
  refine ⟨fun e => ?_, by decide, by decide, by decide⟩
  unfold calculateQualityScore qualityScoreSpec
  by_cases h1 : e.has_crs <;>
  by_cases h2 : e.has_extent <;>
  by_cases h3 : e.metadata_present <;>
  by_cases h4 : e.data_type = "vector" <;>
  by_cases h5 : e.data_type = "raster" <;>
  by_cases h6 : e.field_count > 0 <;>
  by_cases h7 : e.band_count > 0 <;>
  by_cases h8 : e.is_valid.getD true <;>
  by_cases h9 : issuesFalsy e.issues <;>
  simp [h1, h2, h3, h4, h5, h6, h7, h8, h9]

/-- Claim C7, counterexample: when the transform fails, the processor does not
pass the native extent through into the reprojected-extent slot and sets
no flag: `wgs84_extent` stays `none` (not `some exNativeExtent`), the
footprint geometry is `none`, and `issues` is untouched.  The record
itself survives unchanged. -/
theorem transform_failure_no_native_passthrough :
    (transformExtentToWgs84 failingTransform exFieldsWithNative
        exNativeExtent).wgs84_extent = none ∧
    exFieldsWithNative.native_extent = some exNativeExtent ∧
    ¬ (transformExtentToWgs84 failingTransform exFieldsWithNative
        exNativeExtent).wgs84_extent = some exNativeExtent ∧
    createExtentGeometry (transformExtentToWgs84 failingTransform
        exFieldsWithNative exNativeExtent) = none ∧
    (transformExtentToWgs84 failingTransform exFieldsWithNative
        exNativeExtent).issues = exFieldsWithNative.issues := by
  decide

/-- Claim C7, amended: a transform failure never drops the record.  In the
plugin processor the failed transform leaves the record exactly as it
was — the reprojected extent stays unset, the footprint geometry is null
when no reprojected extent exists, and no flag is recorded.  In the
standalone miner script the footprint geometry falls back to the native
extent untransformed and a warning is logged, while the reprojected
extent attribute is also left unset. -/
theorem transform_failure_fallback (transform : Extent → Option Extent)
    (e : ExtractedFields) (extent : Extent)
    (hfail : transform extent = none) :
    transformExtentToWgs84 transform e extent = e ∧
    (e.wgs84_extent = none →
      createExtentGeometry (transformExtentToWgs84 transform e extent) = none) ∧
    minerTransformExtent transform extent =
      { wgs84_extent := none, footprint := extent, warned := true } := by
  refine ⟨?_, ?_, ?_⟩
  · unfold transformExtentToWgs84
    rw [hfail]
  · intro hnone
    unfold transformExtentToWgs84
    rw [hfail]
    unfold createExtentGeometry
    rw [hnone]
  · unfold minerTransformExtent
    rw [hfail]

/-- Witness for `transform_failure_fallback`: the amended C7 statement
instantiated at the always-failing transform and a concrete record. -/
theorem transform_failure_fallback_witness :
    transformExtentToWgs84 failingTransform exFieldsWithNative
        exNativeExtent = exFieldsWithNative ∧
    (exFieldsWithNative.wgs84_extent = none →
      createExtentGeometry (transformExtentToWgs84 failingTransform
        exFieldsWithNative exNativeExtent) = none) ∧
    minerTransformExtent failingTransform exNativeExtent =
      { wgs84_extent := none, footprint := exNativeExtent, warned := true } :=
  transform_failure_fallback failingTransform exFieldsWithNative
    exNativeExtent rfl

/-- Claim C1, counterexample: the container file `/data/a.gpkg` still exists and
its layer "x" is re-extracted, but its layer "y" has disappeared; the
identity `("/data/a.gpkg", "y")` is absent from the newly extracted
record set, yet `_retire_old_records` retires nothing, because the guard
only tests the file path, which is still present. -/
theorem retire_missing_layer_not_retired :
    (("/data/a.gpkg", "y") ∉ [exFdAX].map fun fd => (fd.file_path, fd.layer_name)) ∧
    exRowB.file_path = "/data/a.gpkg" ∧
    exRowB.layer_name = "y" ∧
    exRowB.retired_datetime = none ∧
    retireOldRecords [("/data/a.gpkg", "x"), ("/data/a.gpkg", "y")]
      (currentFilePathsOf [exFdAX]) "2026-02-02T00:00:00"
      [exRowA, exRowB] = [exRowA, exRowB] := by
  decide

/-- Claim C1, amended: in update mode, retirement is keyed on the file path
alone: a previously persisted active record is retired — its
`retired_datetime` set to the retire-time timestamp, with no other field
touched — exactly when its identity is among the prior active identities,
its FILE PATH is absent from the set of file paths of the newly extracted
records, and it is still active.  Consequently a layer that disappears
from a still-existing container file is NOT retired, since a sibling
layer keeps the shared file path present. -/
theorem retire_keyed_on_file_path (keys : List (String × String))
    (paths : List String) (ts : String) (table : List CatalogRow) :
    retireOldRecords keys paths ts table =
      table.map fun r =>
        if (r.file_path, r.layer_name) ∈ keys ∧ r.file_path ∉ paths ∧
            r.retired_datetime = none then
          { r with retired_datetime := some ts }
        else r := by
  rw [retireOldRecords_characterization]
  rfl

/-- Claim C2: in update mode, when the identity of a newly extracted record
matches an active prior record, exactly the four catalog-management
fields are copied from the prior record onto the new one and every other
field keeps its freshly extracted value; with no active prior match the
record starts with `metadata_status = "none"` and
`metadata_cached = false`; and the lookup finds a prior record exactly
when the table holds an active row with the same identity. -/
theorem preserve_management_fields_on_match (table : List CatalogRow)
    (fd : FeatureData) :
    (∀ pm, lookupExisting (loadExistingInventory table)
        (fd.file_path, fd.layer_name) = some pm →
      applyPreservedMetadataStatus (loadExistingInventory table) fd =
        { fd with metadata_status := pm.metadata_status
                  metadata_cached := pm.metadata_cached
                  metadata_last_updated := pm.metadata_last_updated
                  metadata_target := pm.metadata_target }) ∧
    (lookupExisting (loadExistingInventory table)
        (fd.file_path, fd.layer_name) = none →
      applyPreservedMetadataStatus (loadExistingInventory table) fd =
        { fd with metadata_status := some "none"
                  metadata_cached := some false }) ∧
    ((lookupExisting (loadExistingInventory table)
        (fd.file_path, fd.layer_name)).isSome ↔
      ∃ r ∈ table, r.retired_datetime = none ∧
        r.file_path = fd.file_path ∧ r.layer_name = fd.layer_name) := by
  refine ⟨?_, ?_, ?_⟩
  · intro pm hpm
    unfold applyPreservedMetadataStatus
    rw [hpm]
  · intro hnone
    unfold applyPreservedMetadataStatus
    rw [hnone]
  · unfold lookupExisting
    rw [Option.isSome_map']
    rw [List.find?_isSome]
    constructor
    · rintro ⟨entry, hmem, hp⟩
      unfold loadExistingInventory at hmem
      rw [List.mem_filterMap] at hmem
      obtain ⟨r, hr, hconv⟩ := hmem
      by_cases hact : r.retired_datetime = none
      · rw [if_pos hact] at hconv
        have hpair := Option.some.inj hconv
        have h2 : entry.1 = (fd.file_path, fd.layer_name) := of_decide_eq_true hp
        have h1 : (r.file_path, r.layer_name) = (fd.file_path, fd.layer_name) := by
          rw [← h2, ← hpair]
        exact ⟨r, hr, hact, congrArg Prod.fst h1, congrArg Prod.snd h1⟩
      · rw [if_neg hact] at hconv
        cases hconv
    · rintro ⟨r, hr, hact, hfp, hln⟩
      refine ⟨((r.file_path, r.layer_name),
        { metadata_status := r.metadata_status
          metadata_cached := r.metadata_cached
          metadata_last_updated := r.metadata_last_updated
          metadata_target := r.metadata_target }), ?_, ?_⟩
      · unfold loadExistingInventory
        rw [List.mem_filterMap]
        exact ⟨r, hr, by rw [if_pos hact]⟩
      · simp [hfp, hln]

/-- Witness for `preserve_management_fields_on_match`: the match branch
at the prior row `exRowA` (management fields copied), and the no-match
branch at a record whose identity is absent (defaults applied). -/
theorem preserve_management_fields_on_match_witness :
    applyPreservedMetadataStatus (loadExistingInventory [exRowA]) exFdAX =
      { exFdAX with metadata_status := some "complete"
                    metadata_cached := some true
                    metadata_last_updated := some "2025-05-05"
                    metadata_target := some "file" } ∧
    applyPreservedMetadataStatus (loadExistingInventory [exRowA]) exFdNew =
      { exFdNew with metadata_status := some "none"
                     metadata_cached := some false } :=
  ⟨(preserve_management_fields_on_match [exRowA] exFdAX).1
      { metadata_status := some "complete", metadata_cached := some true
        metadata_last_updated := some "2025-05-05"
        metadata_target := some "file" } (by decide),
   (preserve_management_fields_on_match [exRowA] exFdNew).2.1 (by decide)⟩

/-- Claim C3: evaluation of the code at the failing input.  An update-mode
rescan of a catalog holding one active record for `/data/old.shp` over a
directory that now contains only `/data/new.shp` retires the old record
— and then `_write_geopackage` deletes the inventory layer and rewrites
it with only the freshly extracted records, so the retired record is
gone from the persisted catalog, contradicting the claim (and
contradicting the point of `_retire_old_records` itself). -/
theorem retired_row_deleted_by_layer_rewrite :
    processUpdate neverCancel exExtractNew exDssNew "2026-02-02T00:00:00"
        [exRowOld] =
      [{ file_path := "/data/new.shp", layer_name := "new"
         extracted := exFieldsComboValid
         metadata_status := some "none", metadata_cached := some false
         metadata_last_updated := none, metadata_target := none
         retired_datetime := none }] ∧
    (processUpdate neverCancel exExtractNew exDssNew "2026-02-02T00:00:00"
        [exRowOld]).filter (fun r => r.file_path = "/data/old.shp") = [] := by
  decide

/-- Claim C4, counterexample: a failure injected between the retire commit and
the layer rewrite leaves the catalog holding the retired row — not its
pre-scan state — because `_retire_old_records` commits on its own sqlite
connection before `_write_geopackage` runs. -/
theorem write_failure_leaves_retirements :
    processUpdateAt .beforeLayerDelete neverCancel exExtractNew exDssNew
        "2026-02-02T00:00:00" [exRowOld] =
      [{ exRowOld with retired_datetime := some "2026-02-02T00:00:00" }] ∧
    ¬ processUpdateAt .beforeLayerDelete neverCancel exExtractNew exDssNew
        "2026-02-02T00:00:00" [exRowOld] = [exRowOld] := by
  decide

/-- Claim C4, amended: the catalog mutations of one scan session are NOT in a
single transaction: the retirements are committed by their own
connection before the layer rewrite begins, so a failure injected during
the write phase leaves every retirement of the session persisted — any
prior active row whose file path is absent from the new extraction is
present, retired, in the post-failure catalog, which therefore differs
from its pre-scan state whenever the session retires anything. -/
theorem persistence_not_atomic (cancel : Nat → Bool)
    (extract : DSInfo → Option FeatureData) (dss : List DSInfo) (ts : String)
    (table : List CatalogRow) (r : CatalogRow)
    (hne : dss.isEmpty = false) (hr : r ∈ table)
    (hact : r.retired_datetime = none)
    (hmiss : r.file_path ∉ currentFilePathsOf (extractFeaturesU
      (loadExistingInventory table) extract cancel dss)) :
    { r with retired_datetime := some ts } ∈
      processUpdateAt .beforeLayerDelete cancel extract dss ts table := by
  have hentry : ((r.file_path, r.layer_name),
      ({ metadata_status := r.metadata_status
         metadata_cached := r.metadata_cached
         metadata_last_updated := r.metadata_last_updated
         metadata_target := r.metadata_target } : PriorMeta)) ∈
      loadExistingInventory table := by
    unfold loadExistingInventory
    rw [List.mem_filterMap]
    exact ⟨r, hr, by rw [if_pos hact]⟩
  have hexne : (loadExistingInventory table).isEmpty = false := by
    cases hE : loadExistingInventory table with
    | nil => rw [hE] at hentry; cases hentry
    | cons a l => rfl
  have hkey : (r.file_path, r.layer_name) ∈
      (loadExistingInventory table).map (fun entry => entry.1) :=
    List.mem_map.mpr ⟨_, hentry, rfl⟩
  simp only [processUpdateAt, hne, Bool.false_eq_true, if_false, hexne]
  rw [retireOldRecords_characterization]
  refine List.mem_map.mpr ⟨r, hr, ?_⟩
  unfold retireRowSpec
  rw [if_pos ⟨hkey, hmiss, hact⟩]

/-- Witness for `persistence_not_atomic`: the amended C4 statement at the
concrete rescan that retires `/data/old.shp`. -/
theorem persistence_not_atomic_witness :
    { exRowOld with retired_datetime := some "2026-02-02T00:00:00" } ∈
      processUpdateAt .beforeLayerDelete neverCancel exExtractNew exDssNew
        "2026-02-02T00:00:00" [exRowOld] :=
  persistence_not_atomic neverCancel exExtractNew exDssNew
    "2026-02-02T00:00:00" [exRowOld] exRowOld (by decide) (by decide)
    (by decide) (by decide)

/-- Claim C5, counterexample: a scan of two items canceled at the second
between-items check extracts only the first item, and the session then
retires against and commits that partial result: the prior active record
`exRowP` is retired and wiped by the layer rewrite, and the persisted
catalog is not the pre-scan catalog. -/
theorem cancel_commits_partial_result :
    extractFeaturesU (loadExistingInventory [exRowP]) exExtract2
        (cancelFrom 1) exDss2 =
      [{ exFdA2 with metadata_status := some "none"
                     metadata_cached := some false }] ∧
    processUpdate (cancelFrom 1) exExtract2 exDss2 "2026-02-02T00:00:00"
        [exRowP] =
      [{ file_path := "/data/a2.shp", layer_name := "a2"
         extracted := exFieldsComboValid
         metadata_status := some "none", metadata_cached := some false
         metadata_last_updated := none, metadata_target := none
         retired_datetime := none }] ∧
    ¬ processUpdate (cancelFrom 1) exExtract2 exDss2 "2026-02-02T00:00:00"
        [exRowP] = [exRowP] := by
  decide

/-- Claim C5, amended: cancellation stops the extraction loop at the next
between-items check, but nothing is rolled back.  When at least one item
was processed before the check fired (cancellation from check k with
1 ≤ k), the session then behaves exactly like an uninterrupted session
over the first k discovered items, retiring against and committing that
partial result.  When cancellation is caught at the very first check
(k = 0) and the catalog holds any active prior record, the session
extracts nothing, the empty current-file-path set makes
`_retire_old_records` retire EVERY active prior record, and the empty
feature list makes the write phase a no-op: the catalog ends with every
record retired, not in its pre-scan state.  The runner reports
cancellation through the same `error` channel as a failure,
distinguished only by the fixed message "Scan canceled by user" (the
`finished` signal is not emitted). -/
theorem cancel_commits_partial_scan (extract : DSInfo → Option FeatureData)
    (dss : List DSInfo) (ts : String) (table : List CatalogRow) (k : Nat)
    (g l m : String) (n : Nat) :
    (1 ≤ k →
      processUpdate (cancelFrom k) extract dss ts table =
        processUpdate neverCancel extract (dss.take k) ts table) ∧
    (dss.isEmpty = false → (loadExistingInventory table).isEmpty = false →
      processUpdate (cancelFrom 0) extract dss ts table =
        table.map fun r =>
          if r.retired_datetime = none then
            { r with retired_datetime := some ts }
          else r) ∧
    runnerReport true none g l n = .errorOut "Scan canceled by user" ∧
    runnerReport false (some m) g l n = .errorOut m := by
  refine ⟨?_, ?_, rfl, rfl⟩
  · intro hk
    unfold processUpdate processUpdateAt
    cases dss with
    | nil => simp
    | cons d ds =>
        obtain ⟨j, rfl⟩ : ∃ j, k = j + 1 := ⟨k - 1, by omega⟩
        simp only [extractFeaturesU_cancelFrom, List.take_succ_cons,
          List.isEmpty_cons, Bool.false_eq_true, if_false]
  · intro hne hex
    cases dss with
    | nil => simp at hne
    | cons d ds =>
        have hfeat : extractFeaturesU (loadExistingInventory table) extract
            (cancelFrom 0) (d :: ds) = [] := by
          unfold extractFeaturesU
          rw [if_pos (by decide : cancelFrom 0 0 = true)]
        unfold processUpdate processUpdateAt
        simp only [List.isEmpty_cons, Bool.false_eq_true, if_false, hfeat,
          hex, currentFilePathsOf, List.map_nil]
        have hw : ∀ X : List CatalogRow, writeGeopackage [] X = X :=
          fun X => rfl
        rw [hw, retireOldRecords_characterization]
        apply List.map_congr_left
        intro r hr
        unfold retireRowSpec
        by_cases hact : r.retired_datetime = none
        · have hentry : ((r.file_path, r.layer_name),
              ({ metadata_status := r.metadata_status
                 metadata_cached := r.metadata_cached
                 metadata_last_updated := r.metadata_last_updated
                 metadata_target := r.metadata_target } : PriorMeta)) ∈
              loadExistingInventory table := by
            unfold loadExistingInventory
            rw [List.mem_filterMap]
            exact ⟨r, hr, by rw [if_pos hact]⟩
          have hkey : (r.file_path, r.layer_name) ∈
              (loadExistingInventory table).map (fun entry => entry.1) :=
            List.mem_map.mpr ⟨_, hentry, rfl⟩
          rw [if_pos ⟨hkey, List.not_mem_nil _, hact⟩, if_pos hact]
        · rw [if_neg fun hcon => hact hcon.2.2, if_neg hact]

/-- Witness for `cancel_commits_partial_scan`: the amended C5 statement
at the concrete two-item scan, canceled after one item (the partial
prefix commits) and canceled before any item (every active prior record
is retired). -/
theorem cancel_commits_partial_scan_witness :
    processUpdate (cancelFrom 1) exExtract2 exDss2 "2026-02-02T00:00:00"
        [exRowP] =
      processUpdate neverCancel exExtract2 (exDss2.take 1)
        "2026-02-02T00:00:00" [exRowP] ∧
    processUpdate (cancelFrom 0) exExtract2 exDss2 "2026-02-02T00:00:00"
        [exRowP] =
      [exRowP].map (fun r =>
        if r.retired_datetime = none then
          { r with retired_datetime := some "2026-02-02T00:00:00" }
        else r) ∧
    runnerReport true none "/data/inv.gpkg" "geospatial_inventory" 1 =
      .errorOut "Scan canceled by user" ∧
    runnerReport false (some "boom") "/data/inv.gpkg" "geospatial_inventory" 1 =
      .errorOut "boom" :=
  ⟨(cancel_commits_partial_scan exExtract2 exDss2 "2026-02-02T00:00:00"
      [exRowP] 1 "/data/inv.gpkg" "geospatial_inventory" "boom" 1).1
      (by decide),
   (cancel_commits_partial_scan exExtract2 exDss2 "2026-02-02T00:00:00"
      [exRowP] 1 "/data/inv.gpkg" "geospatial_inventory" "boom" 1).2.1
      (by decide) (by decide),
   (cancel_commits_partial_scan exExtract2 exDss2 "2026-02-02T00:00:00"
      [exRowP] 1 "/data/inv.gpkg" "geospatial_inventory" "boom" 1).2.2.1,
   (cancel_commits_partial_scan exExtract2 exDss2 "2026-02-02T00:00:00"
      [exRowP] 1 "/data/inv.gpkg" "geospatial_inventory" "boom" 1).2.2.2⟩

/-- Claim C8: a file that no format library can open (no OGR data source, no
GDAL raster) is silently absent from discovery — the discovery output
over a file sequence containing it equals the output over the sequence
without it, the remaining files are still scanned, and the whole
extraction phase, error counter included, is unaffected by its
presence. -/
theorem unopenable_file_silent (p : DiscoverParams)
    (files1 files2 : List FileProbe) (f : FileProbe)
    (extract : DSInfo → Except String (Option FeatureData)) (s : Stats)
    (hogr : f.ogrLayers = none) (hras : f.gdalRaster = false) :
    discoverGeospatialFiles p (files1 ++ f :: files2) =
      discoverGeospatialFiles p files1 ++ discoverGeospatialFiles p files2 ∧
    runExtraction extract
        (discoverGeospatialFiles p (files1 ++ f :: files2)) s =
      runExtraction extract
        (discoverGeospatialFiles p files1 ++
          discoverGeospatialFiles p files2) s ∧
    (runExtraction extract
        (discoverGeospatialFiles p (files1 ++ f :: files2)) s).2.errors =
      (runExtraction extract
        (discoverGeospatialFiles p files1 ++
          discoverGeospatialFiles p files2) s).2.errors := by
  have h0 : discoverFile p f = [] := discoverFile_unopenable p f hogr hras
  have h1 : discoverGeospatialFiles p (files1 ++ f :: files2) =
      discoverGeospatialFiles p files1 ++ discoverGeospatialFiles p files2 := by
    rw [discoverGeospatialFiles_append]
    have h2 : discoverGeospatialFiles p (f :: files2) =
        discoverFile p f ++ discoverGeospatialFiles p files2 := rfl
    rw [h2, h0, List.nil_append]
  exact ⟨h1, by rw [h1], by rw [h1]⟩

/-- Witness for `unopenable_file_silent`: a directory with one vector
file, one unreadable binary file and one raster file; the unreadable file
contributes neither a record nor an error. -/
theorem unopenable_file_silent_witness :
    discoverGeospatialFiles exParamsAll
        ([exProbeVec] ++ exProbeBad :: [exProbeRas]) =
      discoverGeospatialFiles exParamsAll [exProbeVec] ++
        discoverGeospatialFiles exParamsAll [exProbeRas] ∧
    runExtraction exExtractC8 (discoverGeospatialFiles exParamsAll
        ([exProbeVec] ++ exProbeBad :: [exProbeRas])) exStatsZero =
      runExtraction exExtractC8
        (discoverGeospatialFiles exParamsAll [exProbeVec] ++
          discoverGeospatialFiles exParamsAll [exProbeRas]) exStatsZero ∧
    (runExtraction exExtractC8 (discoverGeospatialFiles exParamsAll
        ([exProbeVec] ++ exProbeBad :: [exProbeRas])) exStatsZero).2.errors =
      (runExtraction exExtractC8
        (discoverGeospatialFiles exParamsAll [exProbeVec] ++
          discoverGeospatialFiles exParamsAll [exProbeRas])
        exStatsZero).2.errors :=
  unopenable_file_silent exParamsAll [exProbeVec] [exProbeRas] exProbeBad
    exExtractC8 exStatsZero rfl rfl

/-- Claim C9: with a live connection, validation succeeds exactly when the
`geospatial_inventory` table exists and every required column
(`metadata_status`, `metadata_last_updated`, `metadata_target`,
`metadata_cached`, `retired_datetime`) is present; any failure carries a
non-empty message.  The validator performs no scan work by
construction. -/
theorem validate_inventory_db_iff (tables columns : List String) :
    ((validateInventoryDatabase true tables columns).1 = true ↔
      ("geospatial_inventory" ∈ tables ∧
        ∀ fld ∈ requiredInventoryFields, fld ∈ columns)) ∧
    ((validateInventoryDatabase true tables columns).1 = false →
      ¬ (validateInventoryDatabase true tables columns).2 = "") := by
  have hfe : ((requiredInventoryFields.filter fun fld =>
      decide (fld ∉ columns)).isEmpty = true) ↔
      (∀ fld ∈ requiredInventoryFields, fld ∈ columns) := by
    simp [List.isEmpty_iff, List.filter_eq_nil_iff]
  have hne2 : ∀ s : String,
      ¬ ("Inventory database is outdated. Missing fields: " ++ s) = "" := by
    intro s h
    have hlen := congrArg String.length h
    rw [String.length_append] at hlen
    have hp : 0 < ("Inventory database is outdated. Missing fields: ").length := by
      decide
    simp at hlen
    omega
  unfold validateInventoryDatabase
  rw [if_neg (by simp : ¬ (true = false))]
  by_cases hmem : "geospatial_inventory" ∈ tables
  · rw [if_pos hmem]
    by_cases hv : (requiredInventoryFields.filter fun fld =>
        decide (fld ∉ columns)).isEmpty = true
    · rw [if_pos hv]
      exact ⟨iff_of_true rfl ⟨hmem, hfe.mp hv⟩,
        fun h => absurd h (by simp)⟩
    · rw [if_neg hv]
      exact ⟨iff_of_false (by simp) (fun hcon => hv (hfe.mpr hcon.2)),
        fun _ => hne2 _⟩
  · rw [if_neg hmem]
    exact ⟨iff_of_false (by simp) (fun hcon => hmem hcon.1),
      fun _ => by decide⟩

/-- Witness for `validate_inventory_db_iff`: a complete catalog schema
validates; a schema missing everything fails with a non-empty message. -/
theorem validate_inventory_db_iff_witness :
    (validateInventoryDatabase true ["geospatial_inventory"]
        requiredInventoryFields).1 = true ∧
    ¬ (validateInventoryDatabase true [] []).2 = "" :=
  ⟨(validate_inventory_db_iff ["geospatial_inventory"]
      requiredInventoryFields).1.mpr ⟨by decide, fun fld hf => hf⟩,
   (validate_inventory_db_iff [] []).2 (by decide)⟩

/-- Claim C10: the editor-facing status-update path rewrites exactly the rows
matching the `(file_path, layer_name)` identity — the condition does not
test `retired_datetime`, so retired rows are updated too — and on those
rows sets only `metadata_status`, `metadata_last_updated` (to the
current time), `metadata_target` and `metadata_cached`, leaving every
other column of every row unchanged; it returns true exactly when some
row matched; and on a database error the rollback leaves the catalog
unchanged. -/
theorem update_status_frame (now fp ln st tg : String) (c : Bool)
    (table : List CatalogRow) :
    ((updateInventoryMetadataStatus true false now fp ln st tg c table).2 =
      table.map fun r =>
        if r.file_path = fp ∧ r.layer_name = ln then
          { r with metadata_status := some st
                   metadata_last_updated := some now
                   metadata_target := some tg
                   metadata_cached := some c }
        else r) ∧
    ((updateInventoryMetadataStatus true false now fp ln st tg c table).1
        = true ↔ ∃ r ∈ table, r.file_path = fp ∧ r.layer_name = ln) ∧
    ((updateInventoryMetadataStatus true false now fp ln st tg c
        table).2.length = table.length) ∧
    updateInventoryMetadataStatus true true now fp ln st tg c table =
      (false, table) := by
  refine ⟨rfl, ?_, by simp [updateInventoryMetadataStatus], rfl⟩
  show (table.any fun r =>
    decide (r.file_path = fp ∧ r.layer_name = ln)) = true ↔ _
  simp [List.any_eq_true]

end MQS
